import Mathlib

/-!
Shallow embedding of shapash/utils/check.py (the validation guards of the
shapash explainability toolkit) together with theorems settling the
claims about its behaviour.

Python values are modelled as follows:
- a model handle is a record of its probed capabilities: whether it has a
  predict method, a predict_proba method, and the values (if present) of
  its private _classes and public classes_ attributes;
- a classes attribute value is either Python None, a plain list of labels,
  or a numpy ndarray of labels (which the code converts with tolist);
- the case string may be any string or Python None, hence Option String;
- errors raised by the code are an enumeration: each distinct raise site
  of the module maps to the error kind the specification names for it,
  and pyTypeError stands for exceptions Python itself would raise
  (e.g. len(None), indexing an empty dtypes sequence).
All functions are total and return Except Err.
-/

namespace ShapashCheck

/-- Error taxonomy of the checks, following section 7 of the module
specification; pyTypeError models an exception raised by the Python
runtime itself rather than by an explicit raise in the module. -/
inductive Err where
  | missingPredict
  | missingClasses
  | labelMismatch
  | invalidMaskParams
  | invalidYPred
  | invalidContributions
  | pyTypeError
deriving DecidableEq

/-- Possible value of a classes attribute on a model: Python None, a plain
list of labels, or a numpy ndarray of labels. -/
inductive CVal where
  | vnone
  | vlist (l : List Int)
  | varr (l : List Int)
deriving DecidableEq

/-- A model handle, reduced to the capabilities check_model probes with
hasattr: privClasses is some v exactly when the model has a _classes
attribute with value v, pubClasses likewise for classes_. -/
structure Model where
  hasPredict : Bool
  hasPredictProba : Bool
  privClasses : Option CVal
  pubClasses : Option CVal
deriving DecidableEq

/-- The local variable _classes of check_model after the two hasattr
assignments and the ndarray-to-list conversion: model._classes is read
first and model.classes_ second, so the public attribute overwrites the
private one when both are present. -/
def rawClasses (m : Model) : CVal :=
  let c1 := m.privClasses.getD CVal.vnone
  let c2 := m.pubClasses.getD c1
  match c2 with
  | CVal.varr l => CVal.vlist l
  | v => v

/-- The classes-derivation block of check_model: entered when the model has
predict_proba or either classes attribute; substitutes [0, 1] for an empty
list when predict_proba is present (catboost binary special case) and
raises when predict_proba is present but the value is still None. -/
def deriveClasses (m : Model) : Except Err CVal :=
  if m.hasPredictProba = true ∨ m.pubClasses.isSome = true ∨ m.privClasses.isSome = true then
    let c := rawClasses m
    let c := if m.hasPredictProba = true ∧ c = CVal.vlist [] then CVal.vlist [0, 1] else c
    if m.hasPredictProba = true ∧ c = CVal.vnone then Except.error Err.missingClasses
    else Except.ok c
  else Except.ok CVal.vnone

/-- The final return of check_model: classification with the derived list
when _classes is not in (None, []), regression with no classes otherwise.
The varr branch is unreachable: deriveClasses never yields an ndarray. -/
def caseOf : CVal → String × Option (List Int)
  | CVal.vnone => ("regression", none)
  | CVal.vlist [] => ("regression", none)
  | CVal.vlist l => ("classification", some l)
  | CVal.varr l => ("classification", some l)

/-- check_model of shapash/utils/check.py: raises when predict is absent,
otherwise derives the case and the classes list from the model. -/
def check_model (m : Model) : Except Err (String × Option (List Int)) :=
  if m.hasPredict = true then
    match deriveClasses m with
    | Except.error e => Except.error e
    | Except.ok c => Except.ok (caseOf c)
  else Except.error Err.missingPredict

/-- check_label_dict of shapash/utils/check.py: a no-op unless label_dict
is non-None and case is the string classification, in which case the key
set of label_dict must equal the set of classes; set(None) in Python
raises a TypeError when classes is None. A label_dict is modelled by its
association list, whose keys are the mapped labels. -/
def check_label_dict (label_dict : Option (List (Int × String))) (case : Option String)
    (classes : Option (List Int)) : Except Err Unit :=
  match label_dict with
  | none => Except.ok ()
  | some ld =>
    if case = some "classification" then
      match classes with
      | none => Except.error Err.pyTypeError
      | some cs =>
        if cs.toFinset ≠ (ld.map Prod.fst).toFinset then Except.error Err.labelMismatch
        else Except.ok ()
    else Except.ok ()

/-- Input to check_mask_params: either a Python dict, modelled by its list
of keys, or any non-dict value. -/
inductive MaskParams where
  | dict (keys : List String)
  | nondict
deriving DecidableEq

/-- The fixed allowed key set of check_mask_params. -/
def conform_arguments : List String :=
  ["features_to_hide", "threshold", "positive", "max_contrib"]

/-- check_mask_params of shapash/utils/check.py: raises when the input is
not a dict or when the list of keys outside conform_arguments is
non-empty. -/
def check_mask_params (mp : MaskParams) : Except Err Unit :=
  match mp with
  | MaskParams.nondict => Except.error Err.invalidMaskParams
  | MaskParams.dict keys =>
    if (keys.filter (fun k => decide (k ∉ conform_arguments))).length ≠ 0 then
      Except.error Err.invalidMaskParams
    else Except.ok ()

/-- Element type of a pandas column, as tested by membership in
[np.float, np.int]. -/
inductive Dtype where
  | dint
  | dfloat
  | dother
deriving DecidableEq

/-- A candidate ypred value: a DataFrame modelled by its index and the
list of its column dtypes (so the column count is the length of that
list), a Series modelled by its index and dtype, or any other value. -/
inductive YPred where
  | df (index : List Int) (dtypes : List Dtype)
  | series (index : List Int) (dtype : Dtype)
  | other
deriving DecidableEq

/-- check_ypred of shapash/utils/check.py: None passes through; otherwise
case must be classification, the value must be a DataFrame or Series, its
index must equal the index of x, a DataFrame must have exactly one column
of int or float dtype (reading dtypes[0] of a zero-column frame raises in
pandas), and a Series of int or float dtype is coerced with to_frame to a
one-column DataFrame before being returned. The dataset x is modelled by
its index. -/
def check_ypred (case : Option String) (x : List Int) (ypred : Option YPred) :
    Except Err (Option YPred) :=
  match ypred with
  | none => Except.ok none
  | some yp =>
    if case ≠ some "classification" then Except.error Err.invalidYPred
    else
      match yp with
      | YPred.other => Except.error Err.invalidYPred
      | YPred.df idx dts =>
        if idx ≠ x then Except.error Err.invalidYPred
        else if dts.length > 1 then Except.error Err.invalidYPred
        else
          match dts with
          | [] => Except.error Err.pyTypeError
          | d :: _ =>
            if d = Dtype.dint ∨ d = Dtype.dfloat then Except.ok (some (YPred.df idx dts))
            else Except.error Err.invalidYPred
      | YPred.series idx d =>
        if idx ≠ x then Except.error Err.invalidYPred
        else if d = Dtype.dint ∨ d = Dtype.dfloat then Except.ok (some (YPred.df idx [d]))
        else Except.error Err.invalidYPred

/-- A candidate contributions value: a pandas DataFrame, a numpy ndarray,
a Python list modelled by its length (its elements are irrelevant to the
check), or any other value. -/
inductive Contribs where
  | df
  | ndarray
  | clist (n : Nat)
  | other
deriving DecidableEq

/-- Discriminator for the isinstance(contributions, list) test. -/
def Contribs.isList : Contribs → Bool
  | Contribs.clist _ => true
  | _ => false

/-- validate_contributions of shapash/utils/check.py: for the regression
case the value must be an ndarray or a DataFrame; for the classification
case it must be a list whose length equals the number of classes
(len(None) raises a TypeError in Python); any other case falls through
without validation. -/
def validate_contributions (case : Option String) (classes : Option (List Int))
    (contributions : Contribs) : Except Err Unit :=
  if case = some "regression" ∧ ¬(contributions = Contribs.ndarray ∨ contributions = Contribs.df) then
    Except.error Err.invalidContributions
  else if case = some "classification" then
    match contributions with
    | Contribs.clist n =>
      match classes with
      | none => Except.error Err.pyTypeError
      | some cs =>
        if n ≠ cs.length then Except.error Err.invalidContributions
        else Except.ok ()
    | _ => Except.error Err.invalidContributions
  else Except.ok ()

/-- Claim C1, counterexample: a model with predict exposing the private
attribute _classes with value [7] and the public attribute classes_ with
value [8] gets its classes list from the public attribute, and [8] is not
the private value [7], so the private attribute is not preferred. -/
theorem check_model_private_preference_counterexample :
    check_model ⟨true, false, some (CVal.vlist [7]), some (CVal.vlist [8])⟩ =
      Except.ok ("classification", some [8]) ∧ ([8] : List Int) ≠ [7] := by
  constructor
  · rfl
  · decide

/-- Claim C1, amended: for every model exposing the public classes_
attribute, check_model ignores the private _classes attribute entirely,
i.e. the public attribute is preferred over the private one. -/
theorem check_model_public_classes_override (m : Model) (h : m.pubClasses.isSome = true) :
    check_model m = check_model { m with privClasses := none } := by
  obtain ⟨p, pp, priv, pub⟩ := m
  cases pub with
  | none => simp at h
  | some v => simp [check_model, deriveClasses, rawClasses]

/-- Witness for check_model_public_classes_override at a model exposing
both attributes. -/
theorem check_model_public_classes_override_witness :
    check_model ⟨true, false, some (CVal.vlist [7]), some (CVal.vlist [8])⟩ =
      check_model ⟨true, false, none, some (CVal.vlist [8])⟩ :=
  check_model_public_classes_override ⟨true, false, some (CVal.vlist [7]), some (CVal.vlist [8])⟩ rfl

/-- Claim C3, counterexample: a model with predict_proba but without
predict and with no derivable classes fails with MissingPredictError, not
MissingClassesError, so the claim quantified over all models with
predict_proba is false; with a derivable empty classes list the result is
the same error rather than the claimed classification return. -/
theorem check_model_proba_without_predict_counterexample :
    check_model ⟨false, true, none, none⟩ = Except.error Err.missingPredict ∧
      check_model ⟨false, true, some (CVal.vlist []), none⟩ = Except.error Err.missingPredict ∧
      Err.missingPredict ≠ Err.missingClasses := by
  refine ⟨rfl, rfl, ?_⟩
  decide

/-- Claim C3, amended: for every model that has both the predict and the
predict_proba capabilities, if the derived classes value is the empty
list then check_model returns classification with classes [0, 1], and if
no classes can be derived (the value stays None) then check_model fails
with MissingClassesError. -/
theorem check_model_proba_classes (m : Model)
    (hp : m.hasPredict = true) (hpp : m.hasPredictProba = true) :
    (rawClasses m = CVal.vlist [] →
        check_model m = Except.ok ("classification", some [0, 1])) ∧
    (rawClasses m = CVal.vnone → check_model m = Except.error Err.missingClasses) := by
  constructor <;> intro hc <;> simp [check_model, deriveClasses, hp, hpp, hc, caseOf]

/-- Witness for check_model_proba_classes: a catboost-style model whose
_classes attribute is the empty list yields classification with [0, 1],
and a model with predict_proba and no classes attribute fails with
MissingClassesError. -/
theorem check_model_proba_classes_witness :
    check_model ⟨true, true, some (CVal.vlist []), none⟩ =
        Except.ok ("classification", some [0, 1]) ∧
      check_model ⟨true, true, none, none⟩ = Except.error Err.missingClasses :=
  ⟨(check_model_proba_classes ⟨true, true, some (CVal.vlist []), none⟩ rfl rfl).1 rfl,
   (check_model_proba_classes ⟨true, true, none, none⟩ rfl rfl).2 rfl⟩

/-- Claim C4: every model lacking the predict capability makes check_model
fail with MissingPredictError. -/
theorem check_model_missing_predict (m : Model) (h : m.hasPredict = false) :
    check_model m = Except.error Err.missingPredict := by
  simp [check_model, h]

/-- Witness for check_model_missing_predict at a model with no
capabilities at all. -/
theorem check_model_missing_predict_witness :
    check_model ⟨false, false, none, none⟩ = Except.error Err.missingPredict :=
  check_model_missing_predict ⟨false, false, none, none⟩ rfl

/-- Claim C2: whenever the case is not classification, check_ypred on any
non-null ypred fails with InvalidYPredError. -/
theorem check_ypred_non_classification (case : Option String) (x : List Int) (yp : YPred)
    (h : case ≠ some "classification") :
    check_ypred case x (some yp) = Except.error Err.invalidYPred := by
  simp [check_ypred, h]

/-- Witness for check_ypred_non_classification: case regression with a
non-null integer series fails. -/
theorem check_ypred_non_classification_witness :
    check_ypred (some "regression") [0] (some (YPred.series [0] Dtype.dint)) =
      Except.error Err.invalidYPred :=
  check_ypred_non_classification (some "regression") [0] (YPred.series [0] Dtype.dint)
    (by decide)

/-- Claim C7: for case classification, a non-null ypred that is a
one-column DataFrame or a Series whose index differs from the index of x
makes check_ypred fail with InvalidYPredError. -/
theorem check_ypred_index_mismatch (x : List Int) (yp : YPred)
    (h : (∃ idx dts, yp = YPred.df idx dts ∧ dts.length = 1 ∧ idx ≠ x) ∨
      (∃ idx d, yp = YPred.series idx d ∧ idx ≠ x)) :
    check_ypred (some "classification") x (some yp) = Except.error Err.invalidYPred := by
  rcases h with ⟨idx, dts, rfl, _, hne⟩ | ⟨idx, d, rfl, hne⟩ <;>
    simp [check_ypred, hne]

/-- Witness for check_ypred_index_mismatch: x index [0, 1, 2] against a
series with index [0, 1, 3]. -/
theorem check_ypred_index_mismatch_witness :
    check_ypred (some "classification") [0, 1, 2] (some (YPred.series [0, 1, 3] Dtype.dint)) =
      Except.error Err.invalidYPred :=
  check_ypred_index_mismatch [0, 1, 2] (YPred.series [0, 1, 3] Dtype.dint)
    (Or.inr ⟨[0, 1, 3], Dtype.dint, rfl, by decide⟩)

/-- Claim C8: for case classification, a Series ypred of int or float
dtype with index equal to the index of x is returned coerced to the
equivalent one-column DataFrame, which is a different value than the
input Series. -/
theorem check_ypred_series_coercion (x idx : List Int) (d : Dtype)
    (hd : d = Dtype.dint ∨ d = Dtype.dfloat) (hidx : idx = x) :
    check_ypred (some "classification") x (some (YPred.series idx d)) =
        Except.ok (some (YPred.df idx [d])) ∧
      YPred.df idx [d] ≠ YPred.series idx d := by
  subst hidx
  refine ⟨by simp [check_ypred, hd], by simp⟩

/-- Witness for check_ypred_series_coercion: a float series indexed
[0, 1, 2] like x comes back as the one-column DataFrame. -/
theorem check_ypred_series_coercion_witness :
    check_ypred (some "classification") [0, 1, 2] (some (YPred.series [0, 1, 2] Dtype.dfloat)) =
        Except.ok (some (YPred.df [0, 1, 2] [Dtype.dfloat])) ∧
      YPred.df [0, 1, 2] [Dtype.dfloat] ≠ YPred.series [0, 1, 2] Dtype.dfloat :=
  check_ypred_series_coercion [0, 1, 2] [0, 1, 2] Dtype.dfloat (Or.inr rfl) rfl

/-- Claim C5: with a non-null label_dict, case classification and a
non-null classes list, check_label_dict fails with LabelMismatchError
exactly when the set of label_dict keys differs from the set of classes
and succeeds exactly when the two sets are equal in any order; with a
non-classification case or a null label_dict it is a no-op. -/
theorem check_label_dict_spec (ld : List (Int × String)) (cs : List Int)
    (case : Option String) (ld? : Option (List (Int × String)))
    (cls? : Option (List Int)) :
    (check_label_dict (some ld) (some "classification") (some cs) =
          Except.error Err.labelMismatch ↔
        cs.toFinset ≠ (ld.map Prod.fst).toFinset) ∧
    (check_label_dict (some ld) (some "classification") (some cs) = Except.ok () ↔
        cs.toFinset = (ld.map Prod.fst).toFinset) ∧
    (case ≠ some "classification" → check_label_dict ld? case cls? = Except.ok ()) ∧
    check_label_dict none case cls? = Except.ok () := by
  refine ⟨?_, ?_, ?_, rfl⟩
  · by_cases h : cs.toFinset = (ld.map Prod.fst).toFinset <;> simp [check_label_dict, h]
  · by_cases h : cs.toFinset = (ld.map Prod.fst).toFinset <;> simp [check_label_dict, h]
  · intro h
    cases ld? with
    | none => rfl
    | some l => simp [check_label_dict, h]

/-- Witness for check_label_dict_spec: classes [0, 1] and label_dict keys
[1, 0] (equal sets in a different order) succeed. -/
theorem check_label_dict_spec_witness :
    check_label_dict (some [(1, "yes"), (0, "no")]) (some "classification") (some [0, 1]) =
      Except.ok () :=
  (check_label_dict_spec [(1, "yes"), (0, "no")] [0, 1] none none none).2.1.mpr (by decide)

/-- The list of non-conform keys computed by check_mask_params is
non-empty exactly when some key lies outside conform_arguments. -/
theorem nonconform_filter_iff (keys : List String) :
    (keys.filter (fun k => decide (k ∉ conform_arguments))).length ≠ 0 ↔
      ∃ k ∈ keys, k ∉ conform_arguments := by
  simp [List.length_eq_zero, List.filter_eq_nil_iff]

/-- Claim C6: check_mask_params fails with InvalidMaskParamsError exactly
when the input is not a dict or has a key outside conform_arguments, and
succeeds on every dict whose keys are all in conform_arguments (in
particular the empty dict). -/
theorem check_mask_params_spec (mp : MaskParams) :
    (check_mask_params mp = Except.error Err.invalidMaskParams ↔
        mp = MaskParams.nondict ∨
          ∃ keys, mp = MaskParams.dict keys ∧ ∃ k ∈ keys, k ∉ conform_arguments) ∧
    ∀ keys, mp = MaskParams.dict keys → (∀ k ∈ keys, k ∈ conform_arguments) →
      check_mask_params mp = Except.ok () := by
  constructor
  · cases mp with
    | nondict => simp [check_mask_params]
    | dict keys =>
      by_cases h : ∃ k ∈ keys, k ∉ conform_arguments
      · simp [check_mask_params, (nonconform_filter_iff keys).mpr h, h]
      · have h0 : ¬ (keys.filter (fun k => decide (k ∉ conform_arguments))).length ≠ 0 :=
          fun hc => h ((nonconform_filter_iff keys).mp hc)
        simp [check_mask_params, h0, h]
  · rintro keys rfl hsub
    have h0 : ¬ (keys.filter (fun k => decide (k ∉ conform_arguments))).length ≠ 0 := by
      intro hc
      obtain ⟨k, hk, hnc⟩ := (nonconform_filter_iff keys).mp hc
      exact hnc (hsub k hk)
    simp [check_mask_params, h0]
    exact hsub

/-- Witness for check_mask_params_spec: the empty dict succeeds. -/
theorem check_mask_params_spec_witness :
    check_mask_params (MaskParams.dict []) = Except.ok () :=
  (check_mask_params_spec (MaskParams.dict [])).2 [] rfl (by simp)

/-- Claim C9: with a non-null classes list, validate_contributions fails
with InvalidContributionsError exactly when the case is regression and
contributions is not an ndarray or DataFrame, or the case is
classification and contributions is not a list, or the case is
classification and contributions is a list whose length differs from
the number of classes; in every other situation it returns normally. -/
theorem validate_contributions_spec (case : Option String) (cs : List Int)
    (contributions : Contribs) :
    (validate_contributions case (some cs) contributions =
          Except.error Err.invalidContributions ↔
        (case = some "regression" ∧
            contributions ≠ Contribs.ndarray ∧ contributions ≠ Contribs.df) ∨
        (case = some "classification" ∧ contributions.isList = false) ∨
        (case = some "classification" ∧
            ∃ n, contributions = Contribs.clist n ∧ n ≠ cs.length)) ∧
    (validate_contributions case (some cs) contributions ≠
          Except.error Err.invalidContributions →
      validate_contributions case (some cs) contributions = Except.ok ()) := by
  constructor
  · by_cases hr : case = some "regression"
    · subst hr
      cases contributions <;> simp [validate_contributions, Contribs.isList]
    · by_cases hc : case = some "classification"
      · subst hc
        cases contributions with
        | df => simp [validate_contributions, Contribs.isList]
        | ndarray => simp [validate_contributions, Contribs.isList]
        | other => simp [validate_contributions, Contribs.isList]
        | clist n =>
          by_cases hn : n = cs.length <;>
            simp [validate_contributions, Contribs.isList, hn]
      · simp [validate_contributions, hr, hc]
  · intro hne
    by_cases hr : case = some "regression"
    · subst hr
      cases contributions with
      | df => simp [validate_contributions]
      | ndarray => simp [validate_contributions]
      | clist n => exact absurd (by simp [validate_contributions]) hne
      | other => exact absurd (by simp [validate_contributions]) hne
    · by_cases hc : case = some "classification"
      · subst hc
        cases contributions with
        | df => exact absurd (by simp [validate_contributions]) hne
        | ndarray => exact absurd (by simp [validate_contributions]) hne
        | other => exact absurd (by simp [validate_contributions]) hne
        | clist n =>
          by_cases hn : n = cs.length
          · subst hn
            simp [validate_contributions]
          · exact absurd (by simp [validate_contributions, hn]) hne
      · simp [validate_contributions, hr, hc]

/-- Witness for validate_contributions_spec: classification with the
empty list of contributions against classes [0, 1] fails (length 0 is
not 2), and regression with a plain 2D ndarray succeeds. -/
theorem validate_contributions_spec_witness :
    validate_contributions (some "classification") (some [0, 1]) (Contribs.clist 0) =
        Except.error Err.invalidContributions ∧
      validate_contributions (some "regression") (some [0, 1]) Contribs.ndarray =
        Except.ok () :=
  ⟨(validate_contributions_spec (some "classification") [0, 1] (Contribs.clist 0)).1.mpr
      (Or.inr (Or.inr ⟨rfl, 0, rfl, by decide⟩)),
    (validate_contributions_spec (some "regression") [0, 1] Contribs.ndarray).2
      (by simp [validate_contributions])⟩

/-- Claim C10: for every case other than regression and classification
(Python None included), validate_contributions returns normally for
every classes value and every contributions value. -/
theorem validate_contributions_other_case (case : Option String)
    (classes : Option (List Int)) (contributions : Contribs)
    (h1 : case ≠ some "regression") (h2 : case ≠ some "classification") :
    validate_contributions case classes contributions = Except.ok () := by
  simp [validate_contributions, h1, h2]

/-- Witness for validate_contributions_other_case: the case value None
with an arbitrary contributions value returns normally. -/
theorem validate_contributions_other_case_witness :
    validate_contributions none (some [0]) Contribs.other = Except.ok () :=
  validate_contributions_other_case none (some [0]) Contribs.other (by decide) (by decide)

end ShapashCheck
